import Mathlib

/-!
Shallow embedding of the LibreTuner application orchestration layer:
the error taxonomy (src/error.rs), the application context and link binder
(src/app.rs), and the command registry, dispatcher and command handlers
(src/cli.rs).  External collaborators from the tuneutils library (platform
definitions, ROM and tune managers, links and their capabilities) are not
part of this repository; they are modelled from the spec's collaborator
interface descriptions (spec sections 3, 6 and 9) and each such definition
says so in its doc comment.  Machine integers index only lists here, so
Nat is used directly; payload bytes are a List Nat.
-/

/-- Error taxonomy translated from the enum in src/error.rs.  Opaque
collaborator errors (tuneutils, io, clap) carry their message string. -/
inductive Error where
  | TuneUtils : String → Error
  | Io : String → Error
  | NoHome : Error
  | InvalidCommand : Error
  | Clap : String → Error
  | InvalidPlatform : Error
  | UnknownModel : Error
  | InvalidDatalink : Error
  | DownloadUnsupported : Error
  | InvalidRom : Error
deriving DecidableEq, Repr

/-- Display rendering of each error, translated from the fmt::Display
implementation in src/error.rs (the Clap variant prints its carried
pre-formatted message verbatim). -/
def Error.display : Error → String
  | .TuneUtils e => "TuneUtils error: " ++ e
  | .Io e => "IO error: " ++ e
  | .NoHome => "No valid home directory path could be retrieved from the operating system"
  | .InvalidCommand => "Invalid command"
  | .Clap e => e
  | .InvalidPlatform => "Invalid platform"
  | .UnknownModel => "Unknown model"
  | .InvalidDatalink => "Invalid datalink"
  | .DownloadUnsupported => "Downloading unsupported for a datalink or platform"
  | .InvalidRom => "Invalid ROM"

/-- Modelled from the spec: a Platform Definition is immutable
(id, name, PID list, model-identification rules); identify(bytes) returns
the matched model, if any.  Models are identified by name; the PID list is
omitted because no claim consults it. -/
structure Platform where
  id : String
  name : String
  identify : List Nat → Option String

/-- Modelled from the spec: the downloader capability of a bound link.
Its one download(onProgress) call blocks, drives the progress callback and
yields the raw image bytes, or fails with an opaque collaborator error;
the field records the outcome of the run under consideration. -/
structure Downloader where
  result : Except String (List Nat)

/-- Modelled from the spec: the diagnostic (UDS) capability of a bound
link; a scan through it yields the sequence of trouble-code identifiers or
an opaque collaborator error. -/
structure UdsCap where
  scanResult : Except String (List Nat)

/-- Modelled from the spec: a Live Link, an open communication channel.
It records which optional capabilities this link contributes once bound to
a platform. -/
structure DataLink where
  downloaderCap : Option Downloader
  udsCap : Option UdsCap

/-- Modelled from the spec: a Link Catalog Entry, a descriptor and factory
whose create() produces a live link or fails with an opaque collaborator
error (device busy, permission denied, ...). -/
structure DataLinkEntry where
  typename : String
  description : String
  createResult : Except String DataLink

/-- Platform-Bound Link: one owned Live Link paired with a shared Platform
Definition, exposing the optional capability accessors (spec data model;
tuneutils link::PlatformLink). -/
structure PlatformLink where
  platform : Platform
  downloader : Option Downloader
  uds : Option UdsCap

/-- PlatformLink::new composes a live link with a platform definition into
a Platform-Bound Link (modelled from the spec: capabilities are present
only if the platform and link combination supports the feature; the
combination's contribution is carried by the link model here). -/
def PlatformLink.new (l : DataLink) (p : Platform) : PlatformLink :=
  ⟨p, l.downloaderCap, l.udsCap⟩

/-- ROM record: persisted firmware record with id, name, owning platform,
identified model and raw payload (spec data model; tuneutils rom::Rom). -/
structure Rom where
  id : String
  name : String
  platform : Platform
  model : String
  data : List Nat

/-- Modelled from the spec: the ROM manager collaborator holding the
ordered list of managed records. -/
structure RomManager where
  roms : List Rom

/-- Modelled from the spec: newRom(name, id, platform, model, data)
constructs a new ROM record and registers it with the manager, returning
the record.  Duplicate ids are accepted silently; per spec section 9 a
record with a duplicate id shadows the earlier one, so registration
appends. -/
def RomManager.new_rom (m : RomManager) (name id : String) (platform : Platform)
    (model : String) (data : List Nat) : RomManager × Rom :=
  (⟨m.roms ++ [⟨id, name, platform, model, data⟩]⟩, ⟨id, name, platform, model, data⟩)

/-- Modelled from the spec: search(id) resolves a ROM by id; with
duplicate ids the most recently registered record shadows earlier ones
(spec section 9), so the list is searched newest first. -/
def RomManager.search (m : RomManager) (id : String) : Option Rom :=
  m.roms.reverse.find? (fun r => r.id == id)

/-- Tune record: persisted calibration record with id, name and the
referenced rom id (spec data model; tuneutils rom::tune). -/
structure Tune where
  id : String
  name : String
  rom_id : String
deriving DecidableEq, Repr

/-- Modelled from the spec: the tune manager collaborator holding the
ordered list of tune records. -/
structure TuneManager where
  tunes : List Tune
deriving DecidableEq, Repr

/-- Modelled from the spec: addMeta(name, id, romId) appends a new Tune
record to the in-memory table (duplicate ids accepted silently). -/
def TuneManager.add_meta (m : TuneManager) (name id rom_id : String) : TuneManager :=
  ⟨m.tunes ++ [⟨id, name, rom_id⟩]⟩

/-- Modelled from the spec: platform catalog lookup find(id), used by
Definitions::find in src/app.rs. -/
def Definitions.find (defs : List Platform) (id : String) : Option Platform :=
  defs.find? (fun p => p.id == id)

/-- Application Context (struct App in src/app.rs): the link catalog, the
platform definition catalog, the ROM manager and the tune manager.  The
configuration and data directory paths are omitted: no claim consults
them. -/
structure App where
  avail_links : List DataLinkEntry
  definitions : List Platform
  roms : RomManager
  tunes : TuneManager

/-- Modelled from the spec: the outcomes of the durable-storage writes
performed during one workflow run — the ROM metadata index (saveMeta), the
raw image (rom save) and the tune index (tune manager save).  none is
success; some e is the opaque collaborator error of a failed write. -/
structure PersistEnv where
  saveMetaResult : Option String
  romSaveResult : Option String
  tuneSaveResult : Option String

/-- Result of running a fallible workflow that may also abort: panicked
models Rust's unwrap on an Err value — the process aborts instead of
returning a value or an error to the caller. -/
inductive RunResult (α : Type) where
  | ok : α → RunResult α
  | err : Error → RunResult α
  | panicked : String → RunResult α
deriving DecidableEq, Repr

/-- App::get_datalink (src/app.rs lines 62-69): an out-of-range index
fails with InvalidDatalink; otherwise the entry's create() runs and its
failure is wrapped as a TuneUtils error by the question-mark conversion. -/
def App.get_datalink (app : App) (id : Nat) : Except Error DataLink :=
  if h : id < app.avail_links.length then
    match (app.avail_links.get ⟨id, h⟩).createResult with
    | .ok l => .ok l
    | .error e => .error (.TuneUtils e)
  else .error .InvalidDatalink

/-- App::create_platform_link (src/app.rs lines 72-77): resolves the link
first, propagating its failure with the question mark; only then resolves
the platform, failing with InvalidPlatform when absent; composes both into
a Platform-Bound Link. -/
def App.create_platform_link (app : App) (datalink : Nat) (platform : String) :
    Except Error PlatformLink :=
  match app.get_datalink datalink with
  | .error e => .error e
  | .ok dl =>
    match Definitions.find app.definitions platform with
    | none => .error .InvalidPlatform
    | some p => .ok (PlatformLink.new dl p)

/-- App::download (src/app.rs lines 90-100): request the downloader
capability (DownloadUnsupported when absent), run it (its failure wrapped
and propagated), identify the image (UnknownModel when no signature
matches), register the new ROM with the manager, then call
save_meta().unwrap() and rom.save().unwrap() — a failed save aborts the
process instead of being returned.  The progress callback argument only
drives printing and is omitted.  Returns the run result together with the
updated application state. -/
def App.download (env : PersistEnv) (app : App) (link : PlatformLink)
    (id name : String) : RunResult Unit × App :=
  match link.downloader with
  | none => (.err .DownloadUnsupported, app)
  | some d =>
    match d.result with
    | .error e => (.err (.TuneUtils e), app)
    | .ok data =>
      match link.platform.identify data with
      | none => (.err .UnknownModel, app)
      | some model =>
        let p := app.roms.new_rom name id link.platform model data
        let app1 : App := ⟨app.avail_links, app.definitions, p.1, app.tunes⟩
        match env.saveMetaResult with
        | some e => (.panicked e, app1)
        | none =>
          match env.romSaveResult with
          | some e => (.panicked e, app1)
          | none => (.ok (), app1)

/-- commands::create_tune (src/cli.rs lines 267-295), after clap argument
parsing: rom and id are the required positional tokens, name the optional
third one defaulting to the id.  Checks that the rom id resolves in the
ROM manager (InvalidRom otherwise), appends the tune record to the
in-memory tune manager with add_meta, then persists the tune index,
propagating its failure (wrapped as a TuneUtils error) with the question
mark. -/
def commands.create_tune (env : PersistEnv) (app : App) (rom_id id : String)
    (name : Option String) : Except Error Unit × App :=
  match app.roms.search rom_id with
  | none => (.error .InvalidRom, app)
  | some _ =>
    let n := name.getD id
    let app1 : App := ⟨app.avail_links, app.definitions, app.roms,
      app.tunes.add_meta n id rom_id⟩
    match env.tuneSaveResult with
    | some e => (.error (.TuneUtils e), app1)
    | none => (.ok (), app1)

/-- commands::scan (src/cli.rs lines 299-325), after clap argument
parsing: resolve the datalink and the platform, build the bound link and
request its UDS capability — when the capability is absent the code fails
with InvalidDatalink (src/cli.rs line 316) — then run the scanner and
print each returned code.  The printed lines are returned alongside the
result. -/
def commands.scan (app : App) (datalink : Nat) (platform : String) :
    Except Error Unit × List String :=
  match app.get_datalink datalink with
  | .error e => (.error e, [])
  | .ok dl =>
    match Definitions.find app.definitions platform with
    | none => (.error .InvalidPlatform, [])
    | some p =>
      match (PlatformLink.new dl p).uds with
      | none => (.error .InvalidDatalink, [])
      | some cap =>
        match cap.scanResult with
        | .error e => (.error (.TuneUtils e), [])
        | .ok codes => (.ok (), codes.map (fun c => toString c))

/-- A registered command (struct Command in src/cli.rs): invocation
keyword, help description, and the handler.  The handler receives the
application state and the remaining tokens and returns its own result
together with the updated state; the registry reference the source also
passes in the context is omitted because no claim consults it. -/
structure Command where
  command : String
  description : String
  run : App → List String → Except Error Unit × App

/-- Cli application (struct Cli in src/cli.rs): the controlled application
state and the ordered command registry. -/
structure Cli where
  app : App
  commands : List Command

/-- Cli::register_command (src/cli.rs lines 412-414): unconditionally
appends to the registry — duplicate keywords are accepted silently, never
rejected. -/
def Cli.register_command (cli : Cli) (c : Command) : Cli :=
  ⟨cli.app, cli.commands ++ [c]⟩

/-- Cli::process (src/cli.rs lines 417-440): the first token selects the
first registered command with that keyword; an empty token stream or no
matching keyword fails with InvalidCommand.  The selected handler runs on
the remaining tokens; its failure is printed — a Clap error as its
pre-formatted usage text, any other error with the label Error: followed
by its display — and absorbed: process returns Ok once a command was found
and run.  The printed lines are returned alongside the updated state. -/
def Cli.process (cli : Cli) (tokens : List String) :
    Except Error Unit × Cli × List String :=
  match tokens with
  | [] => (.error .InvalidCommand, cli, [])
  | cmd :: rest =>
    match cli.commands.find? (fun c => c.command == cmd) with
    | none => (.error .InvalidCommand, cli, [])
    | some c =>
      let r := c.run cli.app rest
      let out : List String :=
        match r.1 with
        | .ok _ => []
        | .error (.Clap e) => [e]
        | .error e => ["Error: " ++ e.display]
      (.ok (), ⟨r.2, cli.commands⟩, out)

/-- A concrete platform used by the concrete runs below: platform P knows
one model, M1, identified by the payload 1, 2, 3. -/
def platM1 : Platform :=
  ⟨"P", "Platform P", fun data => if data == [1, 2, 3] then some "M1" else none⟩

/-- A concrete bound link whose simulated downloader yields bytes
identifying as model M1 of platform P. -/
def linkM1 : PlatformLink := ⟨platM1, some ⟨.ok [1, 2, 3]⟩, none⟩

/-- A concrete bound link whose simulated downloader yields bytes that no
model of platform P identifies. -/
def linkBad : PlatformLink := ⟨platM1, some ⟨.ok [9, 9]⟩, none⟩

/-- A concrete application state with no links, platform P installed, and
empty ROM and tune managers. -/
def app0 : App := ⟨[], [platM1], ⟨[]⟩, ⟨[]⟩⟩

/-- A persistence environment in which every durable write succeeds. -/
def envOk : PersistEnv := ⟨none, none, none⟩

/-- A concrete managed ROM with id r1. -/
def romR : Rom := ⟨"r1", "Rom one", platM1, "M1", [7]⟩

/-- A concrete application state whose ROM manager holds exactly romR. -/
def appR : App := ⟨[], [platM1], ⟨[romR]⟩, ⟨[]⟩⟩

/-- A concrete command with keyword a whose handler sets the tune table to
a recognizable first value. -/
def cmdFirstA : Command :=
  ⟨"a", "first registration of a",
    fun a _ => (.ok (), ⟨a.avail_links, a.definitions, a.roms, ⟨[⟨"one", "one", "one"⟩]⟩⟩)⟩

/-- A concrete command with the same keyword a whose handler sets the tune
table to a different value, to tell the two handlers apart. -/
def cmdSecondA : Command :=
  ⟨"a", "second registration of a",
    fun a _ => (.ok (), ⟨a.avail_links, a.definitions, a.roms, ⟨[⟨"two", "two", "two"⟩]⟩⟩)⟩

/-- A concrete registry holding two commands with the duplicate keyword a. -/
def cliDup : Cli := ⟨app0, [cmdFirstA, cmdSecondA]⟩

/-- A concrete live link exposing neither the downloader nor the
diagnostic capability. -/
def dlNoUds : DataLink := ⟨none, none⟩

/-- A concrete application state with one mock link entry that creates
dlNoUds, and platform P installed. -/
def appScan : App := ⟨[⟨"mock", "mock link", .ok dlNoUds⟩], [platM1], ⟨[]⟩, ⟨[]⟩⟩

theorem RomManager.search_append_self (l : List Rom) (r : Rom) :
    RomManager.search ⟨l ++ [r]⟩ r.id = some r := by
  unfold RomManager.search
  rw [List.reverse_append]
  simp [List.find?]

/-- Claim C1: in a run of download in which the downloader succeeds with
payload data, identification succeeds with model M and both persistence
writes succeed, the call returns Ok, exactly one new ROM record — built
from the supplied id and name, the bound link's platform, M and data — is
appended to the ROM manager, it is retrievable afterward by that id, and
the tune manager is untouched. -/
theorem download_success_registers_one_rom
    (env : PersistEnv) (app : App) (link : PlatformLink) (id name : String)
    (d : Downloader) (data : List Nat) (M : String)
    (hd : link.downloader = some d)
    (hresp : d.result = .ok data)
    (hid : link.platform.identify data = some M)
    (hm : env.saveMetaResult = none)
    (hr : env.romSaveResult = none) :
    (App.download env app link id name).1 = .ok () ∧
    (App.download env app link id name).2.roms.roms
      = app.roms.roms ++ [⟨id, name, link.platform, M, data⟩] ∧
    (App.download env app link id name).2.roms.search id
      = some ⟨id, name, link.platform, M, data⟩ ∧
    (App.download env app link id name).2.tunes = app.tunes := by
  unfold App.download
  simp only [hd, hresp, hid, hm, hr, RomManager.new_rom]
  refine ⟨trivial, trivial, ?_, trivial⟩
  exact RomManager.search_append_self app.roms.roms ⟨id, name, link.platform, M, data⟩

/-- Witness for C1 at a concrete run: downloading over a link bound to
platform P, whose simulated downloader yields bytes identifying as model
M1, registers and resolves exactly the supplied ROM. -/
theorem download_success_registers_one_rom_witness :
    (App.download envOk app0 linkM1 "id1" "Name1").1 = .ok () ∧
    (App.download envOk app0 linkM1 "id1" "Name1").2.roms.roms
      = [⟨"id1", "Name1", platM1, "M1", [1, 2, 3]⟩] ∧
    (App.download envOk app0 linkM1 "id1" "Name1").2.roms.search "id1"
      = some ⟨"id1", "Name1", platM1, "M1", [1, 2, 3]⟩ ∧
    (App.download envOk app0 linkM1 "id1" "Name1").2.tunes = app0.tunes :=
  download_success_registers_one_rom envOk app0 linkM1 "id1" "Name1"
    ⟨.ok [1, 2, 3]⟩ [1, 2, 3] "M1" rfl rfl rfl rfl rfl

/-- Claim C2: when identification of the downloaded bytes fails, download
returns the UnknownModel error and leaves the application state — the ROM
manager included — exactly as before, and any number of repeated failed
downloads leaves the state fixed. -/
theorem download_unknown_model_preserves_state
    (env : PersistEnv) (app : App) (link : PlatformLink) (id name : String)
    (d : Downloader) (data : List Nat)
    (hd : link.downloader = some d)
    (hresp : d.result = .ok data)
    (hid : link.platform.identify data = none) :
    App.download env app link id name = (.err .UnknownModel, app) ∧
    ∀ n : Nat, (fun a => (App.download env a link id name).2)^[n] app = app := by
  have h1 : ∀ a : App, App.download env a link id name = (.err .UnknownModel, a) := by
    intro a
    unfold App.download
    simp [hd, hresp, hid]
  refine ⟨h1 app, fun n => Function.iterate_fixed ?_ n⟩
  show (App.download env app link id name).2 = app
  rw [h1 app]

/-- Witness for C2 at a concrete run: a simulated downloader yields
unidentifiable bytes; download returns UnknownModel, the state is
unchanged and stays unchanged under iteration. -/
theorem download_unknown_model_preserves_state_witness :
    App.download envOk app0 linkBad "id1" "Name1" = (.err .UnknownModel, app0) ∧
    ∀ n : Nat, (fun a => (App.download envOk a linkBad "id1" "Name1").2)^[n] app0 = app0 :=
  download_unknown_model_preserves_state envOk app0 linkBad "id1" "Name1"
    ⟨.ok [9, 9]⟩ [9, 9] rfl rfl rfl

/-- Claim C3: at a concrete run that reaches the persistence step and
whose metadata save fails, download aborts the process (the unwrap on the
failed save) instead of returning the failure as its result — the run
result is panicked, not an error value handed back to the caller. -/
theorem download_save_failure_aborts :
    (App.download ⟨some "disk full", none, none⟩ app0 linkM1 "id1" "Name1").1
      = .panicked "disk full" := rfl

/-- Claim C4: create_tune fails with InvalidRom exactly when the rom id
does not resolve in the ROM manager at call time; when it resolves and the
tune-index save succeeds, the call returns Ok, appends exactly one tune
record carrying the supplied id, the name defaulting to the id when
omitted, and the rom reference verbatim, and leaves the ROM manager
unchanged. -/
theorem create_tune_invalid_rom_iff
    (env : PersistEnv) (app : App) (rom_id id : String) (name : Option String) :
    ((commands.create_tune env app rom_id id name).1 = .error .InvalidRom
       ↔ app.roms.search rom_id = none) ∧
    (app.roms.search rom_id ≠ none → env.tuneSaveResult = none →
      (commands.create_tune env app rom_id id name).1 = .ok () ∧
      (commands.create_tune env app rom_id id name).2.tunes.tunes
        = app.tunes.tunes ++ [⟨id, name.getD id, rom_id⟩] ∧
      (commands.create_tune env app rom_id id name).2.roms = app.roms) := by
  unfold commands.create_tune
  cases hs : app.roms.search rom_id with
  | none => simp
  | some r =>
    cases ht : env.tuneSaveResult with
    | none => simp [TuneManager.add_meta]
    | some e => simp

/-- Claim C10: when the rom id resolves but persisting the tune index
fails, create_tune returns that failure, yet the in-memory tune manager
has already grown by the new record: the operation changes state on the
error path. -/
theorem create_tune_save_failure_keeps_record
    (env : PersistEnv) (app : App) (rom_id id : String) (name : Option String)
    (r : Rom) (e : String)
    (hr : app.roms.search rom_id = some r)
    (hs : env.tuneSaveResult = some e) :
    (commands.create_tune env app rom_id id name).1 = .error (.TuneUtils e) ∧
    (commands.create_tune env app rom_id id name).2.tunes.tunes
      = app.tunes.tunes ++ [⟨id, name.getD id, rom_id⟩] := by
  unfold commands.create_tune
  simp [hr, hs, TuneManager.add_meta]

/-- Witness for C10 at a concrete run: the save fails, the error is
returned, and the tune table nevertheless holds the new record. -/
theorem create_tune_save_failure_keeps_record_witness :
    (commands.create_tune ⟨none, none, some "io"⟩ appR "r1" "t1" none).1
      = .error (.TuneUtils "io") ∧
    (commands.create_tune ⟨none, none, some "io"⟩ appR "r1" "t1" none).2.tunes.tunes
      = [⟨"t1", "t1", "r1"⟩] :=
  create_tune_save_failure_keeps_record ⟨none, none, some "io"⟩ appR "r1" "t1" none
    romR "io" rfl rfl

/-- Claim C5: process returns InvalidCommand exactly when the token
sequence is empty or no registered command's keyword equals the first
token; once a command is found, process returns Ok regardless of the
handler's outcome, the state update comes from that handler, and the
handler's failure is rendered — a Clap argument-parsing failure as its
usage message, any other as a labeled message — instead of being
propagated. -/
theorem process_invalid_command_iff_and_absorbs
    (cli : Cli) (tokens : List String) :
    ((Cli.process cli tokens).1 = .error .InvalidCommand ↔
       (tokens = [] ∨ ∃ cmd rest, tokens = cmd :: rest ∧
         cli.commands.find? (fun c => c.command == cmd) = none)) ∧
    (∀ cmd rest c, tokens = cmd :: rest →
      cli.commands.find? (fun x => x.command == cmd) = some c →
      (Cli.process cli tokens).1 = .ok () ∧
      (Cli.process cli tokens).2.1.app = (c.run cli.app rest).2 ∧
      (Cli.process cli tokens).2.2 =
        (match (c.run cli.app rest).1 with
         | .ok _ => []
         | .error (.Clap e) => [e]
         | .error e => ["Error: " ++ e.display])) := by
  cases tokens with
  | nil =>
    constructor
    · simp [Cli.process]
    · intro cmd rest c h
      exact absurd h (by simp)
  | cons cmd rest =>
    cases hf : cli.commands.find? (fun x => x.command == cmd) with
    | none =>
      constructor
      · simp only [Cli.process, hf]
        simp
        intro x hx
        have hne := List.find?_eq_none.mp hf x hx
        simpa using hne
      · intro cmd' rest' c' heq hfind
        injection heq with h1 h2
        subst h1; subst h2
        rw [hf] at hfind
        exact Option.noConfusion hfind
    | some c =>
      constructor
      · simp only [Cli.process, hf]
        simp
        exact ⟨c, List.mem_of_find?_eq_some hf, by simpa using List.find?_some hf⟩
      · intro cmd' rest' c' heq hfind
        injection heq with h1 h2
        subst h1; subst h2
        rw [hf] at hfind
        injection hfind with h3
        subst h3
        refine ⟨?_, ?_, ?_⟩ <;> simp [Cli.process, hf]

theorem Command.find?_first (pre post : List Command) (c : Command) (cmd : String)
    (hc : c.command = cmd) (hpre : ∀ x ∈ pre, x.command ≠ cmd) :
    (pre ++ c :: post).find? (fun x => x.command == cmd) = some c := by
  induction pre with
  | nil => simp [List.find?_cons, hc]
  | cons a l ih =>
    rw [List.cons_append]
    rw [List.find?_cons_of_neg]
    · exact ih (fun x hx => hpre x (List.mem_cons_of_mem a hx))
    · simp [hpre a (List.mem_cons_self a l)]

/-- Claim C6: for every registry — registries with duplicate keywords
included, which registration accepts silently since register_command
appends unconditionally — dispatch selects the first registered command
whose keyword matches the first token and runs only that command's
handler: the resulting application state is that handler's. -/
theorem process_runs_first_match
    (cli : Cli) (pre post : List Command) (c : Command) (cmd : String) (rest : List String)
    (hcs : cli.commands = pre ++ c :: post)
    (hc : c.command = cmd)
    (hpre : ∀ x ∈ pre, x.command ≠ cmd) :
    (Cli.process cli (cmd :: rest)).1 = .ok () ∧
    (Cli.process cli (cmd :: rest)).2.1.app = (c.run cli.app rest).2 ∧
    (∀ c2 : Command, (Cli.register_command cli c2).commands = cli.commands ++ [c2]) := by
  have hf : cli.commands.find? (fun x => x.command == cmd) = some c := by
    rw [hcs]
    exact Command.find?_first pre post c cmd hc hpre
  unfold Cli.process
  simp [hf, Cli.register_command]

/-- Witness for C6 at a concrete registry holding two commands with the
same keyword: dispatch runs the first registration's handler only — the
resulting tune table is the first handler's — and registration appends
unconditionally. -/
theorem process_runs_first_match_witness :
    (Cli.process cliDup ["a"]).1 = .ok () ∧
    (Cli.process cliDup ["a"]).2.1.app
      = ⟨app0.avail_links, app0.definitions, app0.roms, ⟨[⟨"one", "one", "one"⟩]⟩⟩ ∧
    (∀ c2 : Command, (Cli.register_command cliDup c2).commands = cliDup.commands ++ [c2]) :=
  process_runs_first_match cliDup [] [cmdSecondA] cmdFirstA "a" [] rfl rfl
    (fun x hx => absurd hx (List.not_mem_nil x))

/-- Claim C7 counterexample: with an empty link catalog and an empty
platform catalog the platform id p is absent, yet bind of datalink 0 fails
with InvalidDatalink, not InvalidPlatform — so when the datalink index is
invalid, absence of the platform does not produce the InvalidPlatform
failure. -/
theorem create_platform_link_counterexample :
    Definitions.find ([] : List Platform) "p" = none ∧
    App.create_platform_link ⟨[], [], ⟨[]⟩, ⟨[]⟩⟩ 0 "p" = .error .InvalidDatalink ∧
    (Except.error Error.InvalidDatalink : Except Error PlatformLink)
      ≠ .error .InvalidPlatform := by
  refine ⟨rfl, rfl, ?_⟩
  intro h
  injection h with h1
  exact Error.noConfusion h1

/-- Claim C7 amended: bind fails with InvalidPlatform exactly when the
link resolves (get_datalink succeeds) and the platform id is absent from
the catalog; when link resolution fails, that failure — which is never
InvalidPlatform — is returned regardless of the platform id. -/
theorem create_platform_link_invalid_platform_iff
    (app : App) (dl : Nat) (pid : String) :
    App.create_platform_link app dl pid = .error .InvalidPlatform ↔
      (∃ l, app.get_datalink dl = .ok l) ∧
        Definitions.find app.definitions pid = none := by
  unfold App.create_platform_link
  cases hg : app.get_datalink dl with
  | error e =>
    have he : e ≠ .InvalidPlatform := by
      unfold App.get_datalink at hg
      split at hg
      · split at hg
        · exact Except.noConfusion hg
        · injection hg with h1
          subst h1
          simp
      · injection hg with h1
        subst h1
        simp
    simp [he]
  | ok l =>
    cases hfind : Definitions.find app.definitions pid with
    | none => simp
    | some p => simp

/-- Claim C8: for every index at or beyond the link catalog's length,
get_datalink fails with InvalidDatalink; for every index below the length
it invokes that entry's create() and returns its result — the live link on
success, the wrapped creation failure otherwise — and on that path the
result is never InvalidDatalink. -/
theorem get_datalink_spec (app : App) (idx : Nat) :
    (app.avail_links.length ≤ idx →
      app.get_datalink idx = .error .InvalidDatalink) ∧
    (∀ h : idx < app.avail_links.length,
      ((∃ l, (app.avail_links.get ⟨idx, h⟩).createResult = .ok l ∧
          app.get_datalink idx = .ok l) ∨
       (∃ e, (app.avail_links.get ⟨idx, h⟩).createResult = .error e ∧
          app.get_datalink idx = .error (.TuneUtils e))) ∧
      app.get_datalink idx ≠ .error .InvalidDatalink) := by
  constructor
  · intro hge
    unfold App.get_datalink
    rw [dif_neg (Nat.not_lt.mpr hge)]
  · intro h
    unfold App.get_datalink
    rw [dif_pos h]
    cases hc : (app.avail_links.get ⟨idx, h⟩).createResult with
    | ok l => exact ⟨.inl ⟨l, rfl, rfl⟩, by simp⟩
    | error e => exact ⟨.inr ⟨e, rfl, rfl⟩, by simp⟩

/-- Claim C9 counterexample: a concrete bound link without the diagnostic
capability makes scan fail with InvalidDatalink — displayed as Invalid
datalink — which is not the unsupported-capability error analogous to the
download pipeline's DownloadUnsupported. -/
theorem scan_missing_capability_counterexample :
    (PlatformLink.new dlNoUds platM1).uds = none ∧
    (commands.scan appScan 0 "P").1 = .error .InvalidDatalink ∧
    (commands.scan appScan 0 "P").1 ≠ .error .DownloadUnsupported ∧
    Error.display .InvalidDatalink = "Invalid datalink" := by
  refine ⟨rfl, rfl, ?_, rfl⟩
  intro h
  rw [show (commands.scan appScan 0 "P").1 = .error .InvalidDatalink from rfl] at h
  injection h with h1
  exact Error.noConfusion h1

/-- Claim C9 amended: when the link resolves, the platform is found, and
the bound link exposes no diagnostic capability, scan fails with the
InvalidDatalink error — the code reuses that variant rather than a
dedicated unsupported-capability error. -/
theorem scan_missing_uds_fails_invalid_datalink
    (app : App) (idx : Nat) (pid : String) (dl : DataLink) (p : Platform)
    (hdl : app.get_datalink idx = .ok dl)
    (hp : Definitions.find app.definitions pid = some p)
    (huds : dl.udsCap = none) :
    (commands.scan app idx pid).1 = .error .InvalidDatalink := by
  unfold commands.scan
  simp [hdl, hp, PlatformLink.new, huds]

/-- Witness for the amended C9 at a concrete run over a mock link without
the diagnostic capability. -/
theorem scan_missing_uds_fails_invalid_datalink_witness :
    (commands.scan appScan 0 "P").1 = .error .InvalidDatalink :=
  scan_missing_uds_fails_invalid_datalink appScan 0 "P" dlNoUds platM1 rfl rfl rfl
